import Mathlib

/-!
Shallow embedding of `now_payments.py`, a thin client wrapper for the
NowPayments REST API, and proofs about its six operations.

Modelling conventions:
- Python/JSON values are the inductive `PyVal`; dictionaries are association
  lists of string keys (insertion order preserved, first match wins, as in
  the literal dictionaries of the source).
- Python exceptions are the inductive `PyErr`; fallible code returns
  `Except PyErr _`. The `except requests.exceptions.RequestException`
  clauses of the source log and re-raise, so they do not change the result
  value; exceptions of other classes propagate past them unchanged.
- HTTP is an oracle: each operation builds an `HttpRequest` from its
  arguments and the client state, hands it to a caller-supplied
  `transport : HttpRequest → HttpOutcome`, and handles the outcome the way
  the source handles `requests` responses. `HttpOutcome.networkFailure`
  stands for `requests` raising a `RequestException` before a response
  exists; `HttpOutcome.response` carries the HTTP status code and the
  already-parsed JSON body (`response.json()`).
- `requests.Response.raise_for_status` raises `HTTPError` (a subclass of
  `RequestException`) exactly for status codes 400-499 (client error) and
  500-599 (server error); statuses below 400 pass through. `raise_for_status`
  below embeds that behaviour.
- Machine floats are modelled as rationals; `datetime.now().timestamp()` and
  `datetime.now().isoformat()` are nondeterministic environment inputs, so
  the string each f-string interpolates for them is passed as a parameter.
-/

namespace NowPayments

/-- Python values as they appear in this module: `None`, booleans, numbers
(ints and floats, both as rationals), strings, lists, and string-keyed
dictionaries. -/
inductive PyVal where
  | none
  | bool (b : Bool)
  | num (q : ℚ)
  | str (s : String)
  | list (xs : List PyVal)
  | dict (kvs : List (String × PyVal))

/-- Python exception classes raised by the code paths of this module.
`requestError` is `requests.exceptions.RequestException` (the spec calls it
`GatewayRequestError`); `valueError "Invalid callback data"` is the spec
`InvalidCallbackError`. -/
inductive PyErr where
  | requestError (msg : String)
  | valueError (msg : String)
  | typeError (msg : String)
  | attributeError (msg : String)
  | indexError
deriving DecidableEq

deriving instance DecidableEq for Except

/-- First-match lookup in a Python dictionary modelled as an association
list: `d[k]` when present, `Option.none` when the key is missing. -/
def pyLookup : List (String × PyVal) → String → Option PyVal
  | [], _ => Option.none
  | (k, v) :: rest, key => if k = key then Option.some v else pyLookup rest key

/-- Python `dict.get(key)` with the default `None`. -/
def pyGet (d : List (String × PyVal)) (key : String) : PyVal :=
  (pyLookup d key).getD PyVal.none

/-- Python `dict.get(key, default)`. -/
def pyGetD (d : List (String × PyVal)) (key : String) (dflt : PyVal) : PyVal :=
  (pyLookup d key).getD dflt

/-- Python falsiness: `not v` is true exactly for `None`, `False`, zero,
and empty strings/lists/dicts. -/
def pyFalsy : PyVal → Bool
  | PyVal.none => true
  | PyVal.bool b => !b
  | PyVal.num q => q == 0
  | PyVal.str s => s == ""
  | PyVal.list xs => xs.isEmpty
  | PyVal.dict kvs => kvs.isEmpty

/-- Python `v == someString`: true only when `v` is a string equal to it
(equality between a string and a value of another type is `False`). -/
def pyEqStr : PyVal → String → Bool
  | PyVal.str s, t => s == t
  | _, _ => false

/-- Python `str(v)` for the values this module interpolates into f-strings.
Numeric rendering approximates the Python repr; no claim depends on it. -/
def pyStrOf : PyVal → String
  | PyVal.none => "None"
  | PyVal.bool true => "True"
  | PyVal.bool false => "False"
  | PyVal.num q => toString q
  | PyVal.str s => s
  | PyVal.list _ => "[...]"
  | PyVal.dict _ => "{...}"

/-- Python `str.split(sep)` with a one-character separator, on the character
list: keeps empty fields, so the result always has one more element than the
number of separators. -/
def splitChar (c : Char) : List Char → List (List Char)
  | [] => [[]]
  | a :: as =>
    if a = c then [] :: splitChar c as
    else
      match splitChar c as with
      | [] => [[a]]
      | b :: bs => (a :: b) :: bs

/-- Python `s.split(c)` on strings. -/
def pySplit (s : String) (c : Char) : List String :=
  (splitChar c s.data).map String.mk

/-- Python list indexing `xs[i]`: raises `IndexError` when out of range. -/
def pyIndex {α : Type} (xs : List α) (i : Nat) : Except PyErr α :=
  match xs.get? i with
  | Option.some a => Except.ok a
  | Option.none => Except.error PyErr.indexError

/-- Value of a list of decimal digit characters. -/
def natOfDigits (l : List Char) : Nat :=
  l.foldl (fun a c => a * 10 + (c.toNat - 48)) 0

/-- Python `float(s)` on plain decimal literals: optional sign, digits,
optional point, digits, at least one digit overall. (Python additionally
accepts surrounding whitespace, exponents, `inf`/`nan` and digit
underscores; none of those shapes occur in the claims.) -/
def parsePyFloat (s : String) : Option ℚ :=
  let (sign, l) :=
    match s.data with
    | '-' :: r => ((-1 : ℚ), r)
    | '+' :: r => ((1 : ℚ), r)
    | l => ((1 : ℚ), l)
  let intPart := l.takeWhile Char.isDigit
  let rest := l.dropWhile Char.isDigit
  match rest with
  | [] =>
    if intPart.isEmpty then Option.none
    else Option.some (sign * (natOfDigits intPart : ℚ))
  | '.' :: frac =>
    if frac.all Char.isDigit && !(intPart.isEmpty && frac.isEmpty) then
      Option.some (sign * ((natOfDigits intPart : ℚ) + (natOfDigits frac : ℚ) / 10 ^ frac.length))
    else Option.none
  | _ => Option.none

/-- Python `float(v)`: numbers pass through, booleans become 0/1, strings
are parsed (raising `ValueError` on failure), anything else raises
`TypeError`. -/
def pyFloat : PyVal → Except PyErr ℚ
  | PyVal.num q => Except.ok q
  | PyVal.bool b => Except.ok (if b then 1 else 0)
  | PyVal.str s =>
    match parsePyFloat s with
    | Option.some q => Except.ok q
    | Option.none =>
      Except.error (PyErr.valueError ("could not convert string to float: " ++ s))
  | _ => Except.error (PyErr.typeError "float() argument must be a string or a real number")

/-- Checks that a string looks like the repr of a non-negative Python float:
nonempty digits, a point, nonempty digits — the shape
`str(datetime.now().timestamp())` produces. -/
def isPyFloatRepr (s : String) : Bool :=
  match splitChar '.' s.data with
  | [a, b] => !a.isEmpty && !b.isEmpty && a.all Char.isDigit && b.all Char.isDigit
  | _ => false

/-- An HTTP request as assembled by this module: method, URL, query
parameters, headers, and optional JSON body. -/
structure HttpRequest where
  method : String
  url : String
  params : List (String × String)
  headers : List (String × String)
  jsonBody : Option PyVal

/-- Outcome of handing a request to `requests`: either a response (status
code plus parsed JSON body) or a `RequestException` raised before any
response exists (connection error, timeout, ...). -/
inductive HttpOutcome where
  | response (status : Nat) (body : PyVal)
  | networkFailure (msg : String)

/-- Embeds `requests.Response.raise_for_status`: raises `HTTPError` (a
`RequestException`) for 4xx and 5xx status codes and does nothing for every
other status, 1xx/3xx included. -/
def raise_for_status (status : Nat) : Except PyErr Unit :=
  if 400 ≤ status ∧ status < 500 then
    Except.error (PyErr.requestError (toString status ++ " Client Error"))
  else if 500 ≤ status ∧ status < 600 then
    Except.error (PyErr.requestError (toString status ++ " Server Error"))
  else Except.ok ()

/-- The client object: `self.api_key` and `self.headers`, set in `__init__`
and never written afterwards. -/
structure NowPaymentsAPI where
  api_key : String
  headers : List (String × String)

/-- The class attribute `BASE_URL`. -/
def BASE_URL : String := "https://api.nowpayments.io/v1"

/-- Embeds `__init__`: stores the configured API key and builds the fixed
header dictionary. `Config.NOW_PAYMENTS_API_KEY` is external configuration,
passed as the parameter. -/
def NowPaymentsAPI.construct (apiKey : String) : NowPaymentsAPI :=
  ⟨apiKey, [("x-api-key", apiKey), ("Content-Type", "application/json")]⟩

/-- The JSON payload `create_payment` builds. `tsRepr` is the string the
f-string interpolates for `datetime.now().timestamp()`. -/
def create_payment_payload (price_amount : ℚ) (user_id tsRepr : String) :
    List (String × PyVal) :=
  [("price_amount", PyVal.num price_amount),
   ("price_currency", PyVal.str "usd"),
   ("pay_currency", PyVal.str "usdt"),
   ("order_id", PyVal.str ("deposit_" ++ user_id ++ "_" ++ tsRepr)),
   ("order_description", PyVal.str ("Deposit for user " ++ user_id)),
   ("ipn_callback_url", PyVal.str "https://your-domain.com/nowpayments/callback"),
   ("success_url", PyVal.str "https://your-domain.com/deposit/success"),
   ("cancel_url", PyVal.str "https://your-domain.com/deposit/cancel")]

/-- The POST /payment request `create_payment` sends. -/
def create_payment_request (self : NowPaymentsAPI) (price_amount : ℚ)
    (user_id tsRepr : String) : HttpRequest :=
  ⟨"POST", BASE_URL ++ "/payment", [], self.headers,
   Option.some (PyVal.dict (create_payment_payload price_amount user_id tsRepr))⟩

/-- Shared response handling of the four raise-on-failure operations: a
network failure propagates as `RequestException`; otherwise
`raise_for_status` runs and, when it passes, `response.json()` (the already
parsed body) is returned. -/
def handle_response (outcome : HttpOutcome) : Except PyErr PyVal :=
  match outcome with
  | HttpOutcome.networkFailure m => Except.error (PyErr.requestError m)
  | HttpOutcome.response st body =>
    match raise_for_status st with
    | Except.error e => Except.error e
    | Except.ok _ => Except.ok body

/-- Embeds `create_payment`. -/
def create_payment (self : NowPaymentsAPI) (price_amount : ℚ)
    (user_id tsRepr : String) (transport : HttpRequest → HttpOutcome) :
    Except PyErr PyVal :=
  handle_response (transport (create_payment_request self price_amount user_id tsRepr))

/-- The JSON payload `create_withdrawal` builds. `isoTs` is the string
interpolated for `datetime.now().isoformat()`. -/
def create_withdrawal_payload (address : String) (amount : ℚ)
    (user_id isoTs : String) : List (String × PyVal) :=
  [("withdrawals", PyVal.list
    [PyVal.dict
      [("address", PyVal.str address),
       ("currency", PyVal.str "usdt"),
       ("amount", PyVal.num amount),
       ("ipn_callback_url", PyVal.str "https://your-domain.com/nowpayments/payout-callback"),
       ("payload", PyVal.dict
         [("user_id", PyVal.str user_id),
          ("timestamp", PyVal.str isoTs)])]])]

/-- The POST /payout request `create_withdrawal` sends. -/
def create_withdrawal_request (self : NowPaymentsAPI) (address : String)
    (amount : ℚ) (user_id isoTs : String) : HttpRequest :=
  ⟨"POST", BASE_URL ++ "/payout", [], self.headers,
   Option.some (PyVal.dict (create_withdrawal_payload address amount user_id isoTs))⟩

/-- Embeds `create_withdrawal`. -/
def create_withdrawal (self : NowPaymentsAPI) (address : String) (amount : ℚ)
    (user_id isoTs : String) (transport : HttpRequest → HttpOutcome) :
    Except PyErr PyVal :=
  handle_response (transport (create_withdrawal_request self address amount user_id isoTs))

/-- The GET /payment/id request `get_payment_status` sends. -/
def get_payment_status_request (self : NowPaymentsAPI) (payment_id : String) :
    HttpRequest :=
  ⟨"GET", BASE_URL ++ "/payment/" ++ payment_id, [], self.headers, Option.none⟩

/-- Embeds `get_payment_status`. -/
def get_payment_status (self : NowPaymentsAPI) (payment_id : String)
    (transport : HttpRequest → HttpOutcome) : Except PyErr PyVal :=
  handle_response (transport (get_payment_status_request self payment_id))

/-- The GET /min-amount request `get_minimum_payment_amount` sends. -/
def get_minimum_payment_amount_request (self : NowPaymentsAPI) : HttpRequest :=
  ⟨"GET", BASE_URL ++ "/min-amount", [("currency_from", "usdt")], self.headers,
   Option.none⟩

/-- Embeds `get_minimum_payment_amount`: after `raise_for_status`, evaluates
`float(response.json().get(\x27min_amount\x27, 0))`; a non-dict body makes
`.get` raise `AttributeError`, which the `except RequestException` clause
does not catch. -/
def get_minimum_payment_amount (self : NowPaymentsAPI)
    (transport : HttpRequest → HttpOutcome) : Except PyErr ℚ :=
  match transport (get_minimum_payment_amount_request self) with
  | HttpOutcome.networkFailure m => Except.error (PyErr.requestError m)
  | HttpOutcome.response st body =>
    match raise_for_status st with
    | Except.error e => Except.error e
    | Except.ok _ =>
      match body with
      | PyVal.dict d => pyFloat (pyGetD d "min_amount" (PyVal.num 0))
      | _ => Except.error (PyErr.attributeError "get")

/-- The GET /payment-verification/key request `verify_callback` sends. -/
def verify_callback_request (self : NowPaymentsAPI)
    (ipn_data : List (String × PyVal)) : HttpRequest :=
  ⟨"GET", BASE_URL ++ "/payment-verification/" ++ pyStrOf (pyGet ipn_data "verification_key"),
   [], self.headers, Option.none⟩

/-- Embeds `verify_callback`: the only operation whose `except` clause
catches `RequestException` and returns `False` instead of re-raising.
A non-dict body still raises `AttributeError` from `.get`, which the clause
does not catch. -/
def verify_callback (self : NowPaymentsAPI) (ipn_data : List (String × PyVal))
    (transport : HttpRequest → HttpOutcome) : Except PyErr Bool :=
  match transport (verify_callback_request self ipn_data) with
  | HttpOutcome.networkFailure _ => Except.ok false
  | HttpOutcome.response st body =>
    match raise_for_status st with
    | Except.error _ => Except.ok false
    | Except.ok _ =>
      match body with
      | PyVal.dict d => Except.ok (pyEqStr (pyGet d "verification_status") "confirmed")
      | _ => Except.error (PyErr.attributeError "get")

/-- Embeds `process_callback`: pure, no HTTP. Falsy (in particular missing)
`order_id` or `payment_status` raises `ValueError("Invalid callback data")`;
then `order_id.split(\x27_\x27)[1]` extracts the user id (raising
`IndexError` when the split has fewer than two fields, `AttributeError`
when `order_id` is a truthy non-string); the normalized dictionary is
returned. -/
def process_callback (callback_data : List (String × PyVal)) :
    Except PyErr (List (String × PyVal)) :=
  let payment_status := pyGet callback_data "payment_status"
  let order_id := pyGet callback_data "order_id"
  if pyFalsy order_id || pyFalsy payment_status then
    Except.error (PyErr.valueError "Invalid callback data")
  else
    match order_id with
    | PyVal.str oid =>
      match pyIndex (pySplit oid '_') 1 with
      | Except.error e => Except.error e
      | Except.ok user_id =>
        Except.ok
          [("user_id", PyVal.str user_id),
           ("status", payment_status),
           ("amount", pyGet callback_data "actually_paid"),
           ("currency", pyGet callback_data "pay_currency"),
           ("timestamp", pyGet callback_data "created_at")]
    | _ => Except.error (PyErr.attributeError "split")

/-- The user-id extraction step of `process_callback`, line 177:
`order_id.split(\x27_\x27)[1]`. -/
def extract_user_id (order_id : String) : Except PyErr String :=
  pyIndex (pySplit order_id '_') 1

/-- The order id `create_payment` generates on line 38:
`deposit_` + user id + `_` + timestamp repr. -/
def order_id_of (user_id tsRepr : String) : String :=
  "deposit_" ++ user_id ++ "_" ++ tsRepr

/-- Stateful embedding of `create_payment`: the result together with the
post-call client state; the method body never assigns to `self`, so the
state passes through. -/
def create_paymentS (self : NowPaymentsAPI) (price_amount : ℚ)
    (user_id tsRepr : String) (transport : HttpRequest → HttpOutcome) :
    Except PyErr PyVal × NowPaymentsAPI :=
  (create_payment self price_amount user_id tsRepr transport, self)

/-- Stateful embedding of `create_withdrawal`. -/
def create_withdrawalS (self : NowPaymentsAPI) (address : String) (amount : ℚ)
    (user_id isoTs : String) (transport : HttpRequest → HttpOutcome) :
    Except PyErr PyVal × NowPaymentsAPI :=
  (create_withdrawal self address amount user_id isoTs transport, self)

/-- Stateful embedding of `get_payment_status`. -/
def get_payment_statusS (self : NowPaymentsAPI) (payment_id : String)
    (transport : HttpRequest → HttpOutcome) :
    Except PyErr PyVal × NowPaymentsAPI :=
  (get_payment_status self payment_id transport, self)

/-- Stateful embedding of `get_minimum_payment_amount`. -/
def get_minimum_payment_amountS (self : NowPaymentsAPI)
    (transport : HttpRequest → HttpOutcome) :
    Except PyErr ℚ × NowPaymentsAPI :=
  (get_minimum_payment_amount self transport, self)

/-- Stateful embedding of `verify_callback`. -/
def verify_callbackS (self : NowPaymentsAPI) (ipn_data : List (String × PyVal))
    (transport : HttpRequest → HttpOutcome) :
    Except PyErr Bool × NowPaymentsAPI :=
  (verify_callback self ipn_data transport, self)

/-- Stateful embedding of `process_callback` (the method reads no field of
`self` at all). -/
def process_callbackS (self : NowPaymentsAPI)
    (callback_data : List (String × PyVal)) :
    Except PyErr (List (String × PyVal)) × NowPaymentsAPI :=
  (process_callback callback_data, self)

/-! Helper lemmas about `splitChar` and the parsers. -/

lemma splitChar_ne_nil (c : Char) (xs : List Char) : splitChar c xs ≠ [] := by
  induction xs with
  | nil => simp [splitChar]
  | cons a as ih =>
    by_cases hac : a = c
    · simp [splitChar, hac]
    · simp only [splitChar, if_neg hac]
      cases h : splitChar c as with
      | nil => simp
      | cons b bs => simp

lemma splitChar_not_mem (c : Char) (xs : List Char) (h : c ∉ xs) :
    splitChar c xs = [xs] := by
  induction xs with
  | nil => rfl
  | cons a as ih =>
    have hac : a ≠ c := fun e => h (e ▸ List.mem_cons_self a as)
    have has : c ∉ as := fun m => h (List.mem_cons_of_mem a m)
    simp [splitChar, hac, ih has]

lemma splitChar_append (c : Char) (xs ys : List Char) (h : c ∉ xs) :
    splitChar c (xs ++ c :: ys) = xs :: splitChar c ys := by
  induction xs with
  | nil => simp [splitChar]
  | cons a as ih =>
    have hac : a ≠ c := fun e => h (e ▸ List.mem_cons_self a as)
    have has : c ∉ as := fun m => h (List.mem_cons_of_mem a m)
    simp [splitChar, hac, ih has]

lemma splitChar_cons_eq (c : Char) (as : List Char) :
    splitChar c (c :: as) = [] :: splitChar c as := by
  simp [splitChar]

lemma splitChar_cons_ne_length (c a : Char) (as : List Char) (hac : a ≠ c) :
    (splitChar c (a :: as)).length = (splitChar c as).length := by
  simp only [splitChar, if_neg hac]
  cases h : splitChar c as with
  | nil => exact absurd h (splitChar_ne_nil c as)
  | cons b bs => simp

lemma two_le_splitChar_length (c : Char) (xs ys : List Char) :
    2 ≤ (splitChar c (xs ++ c :: ys)).length := by
  induction xs with
  | nil =>
    rw [List.nil_append, splitChar_cons_eq, List.length_cons]
    have h1 := List.length_pos.mpr (splitChar_ne_nil c ys)
    omega
  | cons a as ih =>
    by_cases hac : a = c
    · subst hac
      rw [List.cons_append, splitChar_cons_eq, List.length_cons]
      have h1 := List.length_pos.mpr (splitChar_ne_nil a (as ++ a :: ys))
      omega
    · rw [List.cons_append, splitChar_cons_ne_length c a _ hac]
      exact ih

lemma order_id_data (u t : String) :
    (order_id_of u t).data = "deposit".data ++ '_' :: (u.data ++ '_' :: t.data) := by
  have h1 : "deposit_".data = "deposit".data ++ ['_'] := rfl
  simp [order_id_of, String.data_append, h1]

lemma order_id_ne_empty (u t : String) : order_id_of u t ≠ "" := by
  intro h
  have h2 := congrArg String.data h
  rw [order_id_data] at h2
  have h3 : ("" : String).data = [] := rfl
  rw [h3] at h2
  have h4 : "deposit".data = ['d', 'e', 'p', 'o', 's', 'i', 't'] := rfl
  rw [h4] at h2
  simp at h2

lemma pySplit_order_id (u t : String) (hu : '_' ∉ u.data) (ht : '_' ∉ t.data) :
    pySplit (order_id_of u t) '_' = ["deposit", u, t] := by
  rw [pySplit, order_id_data, splitChar_append _ _ _ (by decide),
    splitChar_append _ _ _ hu, splitChar_not_mem _ _ ht]
  rfl

lemma two_le_pySplit_order_id_length (u t : String) :
    2 ≤ (pySplit (order_id_of u t) '_').length := by
  rw [pySplit, order_id_data]
  simp only [List.length_map]
  exact two_le_splitChar_length _ _ _

lemma parse_five_five : parsePyFloat "5.5" = Option.some (11/2 : ℚ) := by
  have h : parsePyFloat "5.5" =
      Option.some (1 * (((5 : Nat) : ℚ) + ((5 : Nat) : ℚ) / 10 ^ 1)) := rfl
  rw [h]
  norm_num

/-! Claim theorems. -/

/-- C3: for every input dictionary missing `order_id` or `payment_status`,
`process_callback` raises `ValueError("Invalid callback data")` (the spec
`InvalidCallbackError`) and returns no result. -/
theorem c3_missing_field_invalid_callback (cb : List (String × PyVal))
    (h : pyLookup cb "order_id" = Option.none ∨
      pyLookup cb "payment_status" = Option.none) :
    process_callback cb = Except.error (PyErr.valueError "Invalid callback data") := by
  rcases h with h | h
  · simp [process_callback, pyGet, h, pyFalsy]
  · simp [process_callback, pyGet, h, pyFalsy]

/-- C3 witness: the spec instance, a callback with only `payment_status`. -/
theorem c3_witness :
    process_callback [("payment_status", PyVal.str "finished")] =
      Except.error (PyErr.valueError "Invalid callback data") :=
  c3_missing_field_invalid_callback [("payment_status", PyVal.str "finished")]
    (Or.inl rfl)

/-- C2: for every callback dictionary whose `order_id` has the generated
form and whose `payment_status` is present (truthy), `process_callback`
returns exactly the normalized dictionary: the second underscore-separated
token of `order_id` as `user_id`, the status, and the `actually_paid`,
`pay_currency` and `created_at` fields; no I/O is involved (the embedding
takes no transport). -/
theorem c2_process_callback_normalizes (cb : List (String × PyVal))
    (u t : String) (ps : PyVal)
    (hord : pyGet cb "order_id" = PyVal.str (order_id_of u t))
    (hps : pyGet cb "payment_status" = ps)
    (hfalsy : pyFalsy ps = false) :
    process_callback cb =
      Except.ok
        [("user_id", PyVal.str ((pySplit (order_id_of u t) '_').getD 1 "")),
         ("status", ps),
         ("amount", pyGet cb "actually_paid"),
         ("currency", pyGet cb "pay_currency"),
         ("timestamp", pyGet cb "created_at")] := by
  have hone : pyFalsy (PyVal.str (order_id_of u t)) = false := by
    simp [pyFalsy, order_id_ne_empty u t]
  rw [process_callback]
  simp only [hord, hps, hone, hfalsy, Bool.or_self, Bool.false_eq_true, if_false]
  have hlen := two_le_pySplit_order_id_length u t
  cases hsp : pySplit (order_id_of u t) '_' with
  | nil => rw [hsp] at hlen; simp at hlen
  | cons a rest =>
    cases rest with
    | nil => rw [hsp] at hlen; simp at hlen
    | cons b rest2 =>
      simp [pyIndex]

/-- C2 witness: the concrete callback from the spec normalizes to the
expected record. -/
theorem c2_witness :
    process_callback
        [("order_id", PyVal.str "deposit_abc123_1700000000.0"),
         ("payment_status", PyVal.str "finished"),
         ("actually_paid", PyVal.str "10.0"),
         ("pay_currency", PyVal.str "usdt"),
         ("created_at", PyVal.str "2023-11-14T00:00:00Z")] =
      Except.ok
        [("user_id", PyVal.str "abc123"),
         ("status", PyVal.str "finished"),
         ("amount", PyVal.str "10.0"),
         ("currency", PyVal.str "usdt"),
         ("timestamp", PyVal.str "2023-11-14T00:00:00Z")] := by
  have h := c2_process_callback_normalizes
    [("order_id", PyVal.str "deposit_abc123_1700000000.0"),
     ("payment_status", PyVal.str "finished"),
     ("actually_paid", PyVal.str "10.0"),
     ("pay_currency", PyVal.str "usdt"),
     ("created_at", PyVal.str "2023-11-14T00:00:00Z")]
    "abc123" "1700000000.0" (PyVal.str "finished") rfl rfl rfl
  exact h.trans (by rfl)

/-- C7: for every user id without an underscore and every timestamp repr,
the `process_callback` extraction applied to the order id `create_payment`
generates returns the original user id; and the round trip is broken when
the user id itself contains an underscore (witnessed by `a_b`). -/
theorem c7_order_id_roundtrip :
    (∀ u t : String, '_' ∉ u.data → '_' ∉ t.data →
      extract_user_id (order_id_of u t) = Except.ok u)
    ∧ extract_user_id (order_id_of "a_b" "1.0") ≠ Except.ok "a_b" := by
  constructor
  · intro u t hu ht
    rw [extract_user_id, pySplit_order_id u t hu ht]
    rfl
  · decide

/-- C7 witness: round trip at the concrete user id `abc123`. -/
theorem c7_witness :
    extract_user_id (order_id_of "abc123" "1700000000.0") = Except.ok "abc123" :=
  c7_order_id_roundtrip.1 "abc123" "1700000000.0" (by decide) (by decide)

/-- C5: on a 2xx response, `get_minimum_payment_amount` converts the
`min_amount` field to a number: body `min_amount = "5.5"` yields `5.5`,
the empty body yields `0`, and in general a body without `min_amount`
yields `0` (the default of `.get`). -/
theorem c5_min_amount_extraction (self : NowPaymentsAPI) (st : Nat)
    (h1 : 200 ≤ st) (h2 : st < 300) :
    get_minimum_payment_amount self
        (fun _ => HttpOutcome.response st (PyVal.dict [("min_amount", PyVal.str "5.5")])) =
      Except.ok (11/2 : ℚ)
    ∧ get_minimum_payment_amount self
        (fun _ => HttpOutcome.response st (PyVal.dict [])) = Except.ok 0
    ∧ ∀ d : List (String × PyVal), pyLookup d "min_amount" = Option.none →
        get_minimum_payment_amount self (fun _ => HttpOutcome.response st (PyVal.dict d)) =
          Except.ok 0 := by
  have hrfs : raise_for_status st = Except.ok () := by
    rw [raise_for_status, if_neg (by omega), if_neg (by omega)]
  refine ⟨?_, ?_, ?_⟩
  · simp only [get_minimum_payment_amount, hrfs]
    have hget : pyGetD [("min_amount", PyVal.str "5.5")] "min_amount" (PyVal.num 0) =
        PyVal.str "5.5" := rfl
    rw [hget]
    simp [pyFloat, parse_five_five]
  · simp only [get_minimum_payment_amount, hrfs]
    rfl
  · intro d hd
    simp only [get_minimum_payment_amount, hrfs]
    rw [show pyGetD d "min_amount" (PyVal.num 0) = PyVal.num 0 from by
      simp [pyGetD, hd]]
    rfl

/-- C5 witness: both spec instances at status 200, plus a body without the
field. -/
theorem c5_witness :
    get_minimum_payment_amount (NowPaymentsAPI.construct "key")
        (fun _ => HttpOutcome.response 200 (PyVal.dict [("min_amount", PyVal.str "5.5")])) =
      Except.ok (11/2 : ℚ)
    ∧ get_minimum_payment_amount (NowPaymentsAPI.construct "key")
        (fun _ => HttpOutcome.response 200 (PyVal.dict [])) = Except.ok 0
    ∧ get_minimum_payment_amount (NowPaymentsAPI.construct "key")
        (fun _ => HttpOutcome.response 200 (PyVal.dict [("other", PyVal.num 3)])) =
      Except.ok 0 := by
  obtain ⟨w1, w2, w3⟩ :=
    c5_min_amount_extraction (NowPaymentsAPI.construct "key") 200 (by omega) (by omega)
  exact ⟨w1, w2, w3 [("other", PyVal.num 3)] rfl⟩

/-- C10: a 2xx response whose `min_amount` is not parseable as a number
makes `get_minimum_payment_amount` raise `ValueError` from the `float`
conversion; the error is not a `RequestException`, so the except clause
does not catch or wrap it. -/
theorem c10_unparseable_min_amount_valueerror (self : NowPaymentsAPI) (st : Nat)
    (h1 : 200 ≤ st) (h2 : st < 300) :
    get_minimum_payment_amount self
        (fun _ => HttpOutcome.response st (PyVal.dict [("min_amount", PyVal.str "abc")])) =
      Except.error (PyErr.valueError "could not convert string to float: abc") := by
  have hrfs : raise_for_status st = Except.ok () := by
    rw [raise_for_status, if_neg (by omega), if_neg (by omega)]
  simp only [get_minimum_payment_amount, hrfs]
  rfl

/-- C10 witness: the failing conversion at status 200. -/
theorem c10_witness :
    get_minimum_payment_amount (NowPaymentsAPI.construct "key")
        (fun _ => HttpOutcome.response 200 (PyVal.dict [("min_amount", PyVal.str "abc")])) =
      Except.error (PyErr.valueError "could not convert string to float: abc") :=
  c10_unparseable_min_amount_valueerror (NowPaymentsAPI.construct "key") 200
    (by omega) (by omega)

/-- C1 counterexample: status 304 is not 2xx, yet
`get_minimum_payment_amount` does not raise: it returns the converted body
value, because `raise_for_status` only raises for 4xx/5xx. -/
theorem c1_counterexample :
    ¬ (200 ≤ 304 ∧ 304 < 300)
    ∧ get_minimum_payment_amount (NowPaymentsAPI.construct "key")
        (fun _ => HttpOutcome.response 304 (PyVal.dict [("min_amount", PyVal.str "5.5")])) =
      Except.ok (11/2 : ℚ) := by
  refine ⟨by omega, ?_⟩
  have h : get_minimum_payment_amount (NowPaymentsAPI.construct "key")
      (fun _ => HttpOutcome.response 304 (PyVal.dict [("min_amount", PyVal.str "5.5")])) =
      pyFloat (PyVal.str "5.5") := rfl
  rw [h]
  simp [pyFloat, parse_five_five]

/-- C1 (amended): for every response with a 4xx or 5xx status, each of
`create_payment`, `create_withdrawal`, `get_payment_status` and
`get_minimum_payment_amount` raises the `RequestException` from
`raise_for_status` (re-raised after logging) and returns no value; non-2xx
statuses outside 400-599 (such as 304) pass `raise_for_status` and do not
raise. -/
theorem c1_amended_raises_on_error_status (self : NowPaymentsAPI) (st : Nat)
    (body : PyVal) (pa amt : ℚ) (uid ts addr wts pid : String)
    (h1 : 400 ≤ st) (h2 : st < 600) :
    (∃ m, create_payment self pa uid ts (fun _ => HttpOutcome.response st body) =
        Except.error (PyErr.requestError m))
    ∧ (∃ m, create_withdrawal self addr amt uid wts
        (fun _ => HttpOutcome.response st body) = Except.error (PyErr.requestError m))
    ∧ (∃ m, get_payment_status self pid (fun _ => HttpOutcome.response st body) =
        Except.error (PyErr.requestError m))
    ∧ (∃ m, get_minimum_payment_amount self (fun _ => HttpOutcome.response st body) =
        Except.error (PyErr.requestError m)) := by
  have hrfs : ∃ m, raise_for_status st = Except.error (PyErr.requestError m) := by
    by_cases h : st < 500
    · exact ⟨toString st ++ " Client Error", by
        rw [raise_for_status, if_pos ⟨h1, h⟩]⟩
    · exact ⟨toString st ++ " Server Error", by
        rw [raise_for_status, if_neg (by omega), if_pos (by omega)]⟩
  obtain ⟨m, hm⟩ := hrfs
  refine ⟨⟨m, ?_⟩, ⟨m, ?_⟩, ⟨m, ?_⟩, ⟨m, ?_⟩⟩
  · simp only [create_payment, handle_response, hm]
  · simp only [create_withdrawal, handle_response, hm]
  · simp only [get_payment_status, handle_response, hm]
  · simp only [get_minimum_payment_amount, hm]

/-- C1 witness: all four operations fail with `RequestException` at status
404. -/
theorem c1_witness :
    (∃ m, create_payment (NowPaymentsAPI.construct "key") 10 "user1" "1700000000.0"
        (fun _ => HttpOutcome.response 404 (PyVal.dict [])) =
        Except.error (PyErr.requestError m))
    ∧ (∃ m, create_withdrawal (NowPaymentsAPI.construct "key") "addr" 2 "user1" "2024-01-01"
        (fun _ => HttpOutcome.response 404 (PyVal.dict [])) =
        Except.error (PyErr.requestError m))
    ∧ (∃ m, get_payment_status (NowPaymentsAPI.construct "key") "pid"
        (fun _ => HttpOutcome.response 404 (PyVal.dict [])) =
        Except.error (PyErr.requestError m))
    ∧ (∃ m, get_minimum_payment_amount (NowPaymentsAPI.construct "key")
        (fun _ => HttpOutcome.response 404 (PyVal.dict [])) =
        Except.error (PyErr.requestError m)) :=
  c1_amended_raises_on_error_status (NowPaymentsAPI.construct "key") 404
    (PyVal.dict []) 10 2 "user1" "1700000000.0" "addr" "2024-01-01" "pid"
    (by omega) (by omega)

/-- C4 counterexample: a 304 response (not 2xx) whose body reports
`verification_status = "confirmed"` makes `verify_callback` return `True`,
contradicting both directions of the claimed equivalence. -/
theorem c4_counterexample :
    verify_callback (NowPaymentsAPI.construct "key")
        [("verification_key", PyVal.str "k")]
        (fun _ => HttpOutcome.response 304
          (PyVal.dict [("verification_status", PyVal.str "confirmed")])) =
      Except.ok true
    ∧ ¬ (200 ≤ 304 ∧ 304 < 300) :=
  ⟨rfl, by omega⟩

/-- C4 (amended): `verify_callback` returns `False` on every network
failure and on every 4xx/5xx status, never propagating the
`RequestException`; on statuses below 400 (which includes all 2xx, but also
1xx/3xx such as 304) it returns whether the `verification_status` of the
response equals `"confirmed"`. -/
theorem c4_amended_verify_callback (self : NowPaymentsAPI)
    (ipn : List (String × PyVal)) :
    (∀ (tr : HttpRequest → HttpOutcome) (m : String),
      tr (verify_callback_request self ipn) = HttpOutcome.networkFailure m →
      verify_callback self ipn tr = Except.ok false)
    ∧ (∀ (tr : HttpRequest → HttpOutcome) (st : Nat) (body : PyVal),
      tr (verify_callback_request self ipn) = HttpOutcome.response st body →
      400 ≤ st → st < 600 →
      verify_callback self ipn tr = Except.ok false)
    ∧ (∀ (tr : HttpRequest → HttpOutcome) (st : Nat) (d : List (String × PyVal)),
      tr (verify_callback_request self ipn) = HttpOutcome.response st (PyVal.dict d) →
      st < 400 →
      verify_callback self ipn tr =
        Except.ok (pyEqStr (pyGet d "verification_status") "confirmed")) := by
  refine ⟨?_, ?_, ?_⟩
  · intro tr m h
    simp only [verify_callback, h]
  · intro tr st body h hlo hhi
    have hrfs : ∃ m, raise_for_status st = Except.error (PyErr.requestError m) := by
      by_cases hc : st < 500
      · exact ⟨toString st ++ " Client Error", by
          rw [raise_for_status, if_pos ⟨hlo, hc⟩]⟩
      · exact ⟨toString st ++ " Server Error", by
          rw [raise_for_status, if_neg (by omega), if_pos (by omega)]⟩
    obtain ⟨m, hm⟩ := hrfs
    simp only [verify_callback, h, hm]
  · intro tr st d h hlt
    have hrfs : raise_for_status st = Except.ok () := by
      rw [raise_for_status, if_neg (by omega), if_neg (by omega)]
    simp only [verify_callback, h, hrfs]

/-- C4 witness: the three branches at concrete transports — network
failure, status 500, and status 200 with an unconfirmed body. -/
theorem c4_witness :
    verify_callback (NowPaymentsAPI.construct "key") []
        (fun _ => HttpOutcome.networkFailure "connection reset") = Except.ok false
    ∧ verify_callback (NowPaymentsAPI.construct "key") []
        (fun _ => HttpOutcome.response 500 PyVal.none) = Except.ok false
    ∧ verify_callback (NowPaymentsAPI.construct "key") []
        (fun _ => HttpOutcome.response 200
          (PyVal.dict [("verification_status", PyVal.str "pending")])) =
      Except.ok false := by
  obtain ⟨w1, w2, w3⟩ :=
    c4_amended_verify_callback (NowPaymentsAPI.construct "key") []
  refine ⟨w1 _ "connection reset" rfl, w2 _ 500 PyVal.none rfl (by omega) (by omega), ?_⟩
  exact (w3 _ 200 [("verification_status", PyVal.str "pending")] rfl (by omega)).trans
    (by rfl)

/-- C6: for all inputs, `create_payment` sends a POST /payment request
whose JSON body fixes `price_currency = "usd"`, `pay_currency = "usdt"`,
an `order_id` of the form `deposit_` + user id + `_` + float repr, and the
three hardcoded callback URLs. -/
theorem c6_create_payment_request_shape (self : NowPaymentsAPI) (pa : ℚ)
    (uid ts : String) (h : isPyFloatRepr ts = true) :
    (create_payment_request self pa uid ts).method = "POST"
    ∧ (create_payment_request self pa uid ts).url = BASE_URL ++ "/payment"
    ∧ (create_payment_request self pa uid ts).jsonBody =
        Option.some (PyVal.dict (create_payment_payload pa uid ts))
    ∧ pyLookup (create_payment_payload pa uid ts) "price_currency" =
        Option.some (PyVal.str "usd")
    ∧ pyLookup (create_payment_payload pa uid ts) "pay_currency" =
        Option.some (PyVal.str "usdt")
    ∧ (∃ f, isPyFloatRepr f = true ∧
        pyLookup (create_payment_payload pa uid ts) "order_id" =
          Option.some (PyVal.str ("deposit_" ++ uid ++ "_" ++ f)))
    ∧ pyLookup (create_payment_payload pa uid ts) "ipn_callback_url" =
        Option.some (PyVal.str "https://your-domain.com/nowpayments/callback")
    ∧ pyLookup (create_payment_payload pa uid ts) "success_url" =
        Option.some (PyVal.str "https://your-domain.com/deposit/success")
    ∧ pyLookup (create_payment_payload pa uid ts) "cancel_url" =
        Option.some (PyVal.str "https://your-domain.com/deposit/cancel") :=
  ⟨rfl, rfl, rfl, rfl, rfl, ⟨ts, h, rfl⟩, rfl, rfl, rfl⟩

/-- C6 witness: the request shape at concrete arguments, with the concrete
generated order id. -/
theorem c6_witness :
    (create_payment_request (NowPaymentsAPI.construct "key") 10 "user1"
      "1700000000.0").method = "POST"
    ∧ pyLookup (create_payment_payload 10 "user1" "1700000000.0") "order_id" =
        Option.some (PyVal.str "deposit_user1_1700000000.0") := by
  have h := c6_create_payment_request_shape (NowPaymentsAPI.construct "key") 10
    "user1" "1700000000.0" rfl
  exact ⟨h.1, rfl⟩

/-- C8: every one of the six operations leaves the client state unchanged:
in the stateful embedding the post-call `self` equals the pre-call `self`,
so the configuration (`api_key`, `headers`; `BASE_URL` is a constant) seen
after any call is the construction-time one. -/
theorem c8_ops_preserve_client_state (self : NowPaymentsAPI) (pa amt : ℚ)
    (uid ts addr wts pid : String) (ipn cb : List (String × PyVal))
    (tr : HttpRequest → HttpOutcome) :
    (create_paymentS self pa uid ts tr).2 = self
    ∧ (create_withdrawalS self addr amt uid wts tr).2 = self
    ∧ (get_payment_statusS self pid tr).2 = self
    ∧ (get_minimum_payment_amountS self tr).2 = self
    ∧ (verify_callbackS self ipn tr).2 = self
    ∧ (process_callbackS self cb).2 = self
    ∧ ((create_paymentS self pa uid ts tr).2).api_key = self.api_key
    ∧ ((create_paymentS self pa uid ts tr).2).headers = self.headers :=
  ⟨rfl, rfl, rfl, rfl, rfl, rfl, rfl, rfl⟩

/-- C9: a callback whose `order_id` is a nonempty string without an
underscore passes the presence check and then makes
`order_id.split(\x27_\x27)[1]` raise `IndexError`, not
`InvalidCallbackError`. -/
theorem c9_indexerror_reachable (oid s : String)
    (h1 : oid ≠ "") (h2 : '_' ∉ oid.data) (h3 : s ≠ "") :
    process_callback [("order_id", PyVal.str oid), ("payment_status", PyVal.str s)] =
      Except.error PyErr.indexError := by
  have hps : pyGet [("order_id", PyVal.str oid), ("payment_status", PyVal.str s)]
      "payment_status" = PyVal.str s := rfl
  have hord : pyGet [("order_id", PyVal.str oid), ("payment_status", PyVal.str s)]
      "order_id" = PyVal.str oid := rfl
  have hf1 : pyFalsy (PyVal.str oid) = false := by simp [pyFalsy, h1]
  have hf2 : pyFalsy (PyVal.str s) = false := by simp [pyFalsy, h3]
  rw [process_callback]
  simp only [hps, hord, hf1, hf2, Bool.or_self, Bool.false_eq_true, if_false]
  rw [pySplit, splitChar_not_mem '_' oid.data h2]
  rfl

/-- C9 witness: the concrete input from the claim. -/
theorem c9_witness :
    process_callback
        [("order_id", PyVal.str "deposit"), ("payment_status", PyVal.str "finished")] =
      Except.error PyErr.indexError :=
  c9_indexerror_reachable "deposit" "finished" (by decide) (by decide) (by decide)

end NowPayments
